import Mathlib

/-! Formal model of the ISL avatar animation engine and stream manager
    (src/backend/avatar_engine.py and src/backend/websocket_handler.py).
    Python floats are modelled as rationals, Python dicts either as
    insertion-ordered association lists or as functions into Option, and
    wall-clock values (time.time) as explicit parameters or omitted fields
    when no property depends on them. -/

namespace ISLModel



/-- Triple of coordinates (x, y, z), modelling the Python 3-tuples of floats. -/
abbrev Vec3 := ℚ × ℚ × ℚ

/-- Mapping from joint name to position, modelling the `joint_positions`
    Python dict (association list, insertion order preserved). -/
abbrev JointMap := List (String × Vec3)

/-- KeyFrame dataclass of avatar_engine.py (lines 21-26). -/
structure KeyFrame where
  timestamp : ℚ
  joint_positions : JointMap
  duration : ℚ
deriving DecidableEq

/-- AvatarPose dataclass of avatar_engine.py (lines 28-33). -/
structure AvatarPose where
  name : String
  keyframes : List KeyFrame
  transition_duration : ℚ
deriving DecidableEq

/-- HELLO pose from `_initialize_pose_library`. -/
def HELLO_pose : AvatarPose :=
  { name := "HELLO"
    keyframes :=
      [ { timestamp := 0.0
          joint_positions :=
            [("right_hand", (0.3, 0.8, 0.0)), ("right_wrist", (0.35, 0.75, 0.0)),
             ("head", (0.0, 0.0, 0.05))]
          duration := 0.5 }
      , { timestamp := 0.5
          joint_positions :=
            [("right_hand", (0.4, 0.9, 0.1)), ("right_wrist", (0.45, 0.85, 0.1)),
             ("head", (0.0, 0.0, -0.05))]
          duration := 0.5 }
      , { timestamp := 1.0
          joint_positions :=
            [("right_hand", (0.3, 0.8, 0.0)), ("right_wrist", (0.35, 0.75, 0.0)),
             ("head", (0.0, 0.0, 0.0))]
          duration := 0.3 } ]
    transition_duration := 0.2 }

/-- HOW pose from `_initialize_pose_library`. -/
def HOW_pose : AvatarPose :=
  { name := "HOW"
    keyframes :=
      [ { timestamp := 0.0
          joint_positions :=
            [("both_hands", (0.0, 0.6, 0.0)), ("right_hand", (0.2, 0.6, 0.0)),
             ("left_hand", (-0.2, 0.6, 0.0)), ("eyebrows", (0.0, 0.1, 0.0))]
          duration := 0.8 }
      , { timestamp := 0.8
          joint_positions :=
            [("both_hands", (0.0, 0.7, 0.1)), ("right_hand", (0.25, 0.7, 0.1)),
             ("left_hand", (-0.25, 0.7, 0.1)), ("eyebrows", (0.0, 0.15, 0.0))]
          duration := 0.4 } ]
    transition_duration := 0.3 }

/-- YOU pose from `_initialize_pose_library`. -/
def YOU_pose : AvatarPose :=
  { name := "YOU"
    keyframes :=
      [ { timestamp := 0.0
          joint_positions :=
            [("right_hand", (0.0, 0.7, 0.3)), ("right_index", (0.0, 0.75, 0.35)),
             ("head", (0.0, 0.0, 0.0)), ("eyes", (0.0, 0.0, 0.1))]
          duration := 0.6 }
      , { timestamp := 0.6
          joint_positions :=
            [("right_hand", (0.05, 0.7, 0.4)), ("right_index", (0.05, 0.75, 0.45)),
             ("head", (0.0, 0.02, 0.0)), ("eyes", (0.0, 0.0, 0.15))]
          duration := 0.4 } ]
    transition_duration := 0.2 }

/-- THANK-YOU pose from `_initialize_pose_library`. -/
def THANK_YOU_pose : AvatarPose :=
  { name := "THANK-YOU"
    keyframes :=
      [ { timestamp := 0.0
          joint_positions :=
            [("right_hand", (0.0, 0.9, 0.2)), ("right_palm", (0.0, 0.95, 0.25)),
             ("head", (0.0, -0.1, 0.0))]
          duration := 0.5 }
      , { timestamp := 0.5
          joint_positions :=
            [("right_hand", (0.0, 0.7, 0.4)), ("right_palm", (0.0, 0.75, 0.45)),
             ("head", (0.0, -0.15, 0.0))]
          duration := 0.8 }
      , { timestamp := 1.3
          joint_positions :=
            [("right_hand", (0.0, 0.6, 0.2)), ("right_palm", (0.0, 0.65, 0.25)),
             ("head", (0.0, 0.0, 0.0))]
          duration := 0.4 } ]
    transition_duration := 0.3 }

/-- YES pose from `_initialize_pose_library`. -/
def YES_pose : AvatarPose :=
  { name := "YES"
    keyframes :=
      [ { timestamp := 0.0
          joint_positions := [("head", (0.0, 0.0, 0.0)), ("neck", (0.0, 0.0, 0.0))]
          duration := 0.2 }
      , { timestamp := 0.2
          joint_positions := [("head", (0.0, -0.2, 0.0)), ("neck", (0.0, -0.1, 0.0))]
          duration := 0.3 }
      , { timestamp := 0.5
          joint_positions := [("head", (0.0, 0.1, 0.0)), ("neck", (0.0, 0.05, 0.0))]
          duration := 0.3 }
      , { timestamp := 0.8
          joint_positions := [("head", (0.0, 0.0, 0.0)), ("neck", (0.0, 0.0, 0.0))]
          duration := 0.2 } ]
    transition_duration := 0.1 }

/-- NO pose from `_initialize_pose_library`. -/
def NO_pose : AvatarPose :=
  { name := "NO"
    keyframes :=
      [ { timestamp := 0.0
          joint_positions := [("head", (0.0, 0.0, 0.0)), ("neck", (0.0, 0.0, 0.0))]
          duration := 0.1 }
      , { timestamp := 0.1
          joint_positions := [("head", (-0.15, 0.0, 0.0)), ("neck", (-0.1, 0.0, 0.0))]
          duration := 0.3 }
      , { timestamp := 0.4
          joint_positions := [("head", (0.15, 0.0, 0.0)), ("neck", (0.1, 0.0, 0.0))]
          duration := 0.3 }
      , { timestamp := 0.7
          joint_positions := [("head", (0.0, 0.0, 0.0)), ("neck", (0.0, 0.0, 0.0))]
          duration := 0.2 } ]
    transition_duration := 0.1 }

/-- DEFAULT pose from `_initialize_pose_library`. -/
def DEFAULT_pose : AvatarPose :=
  { name := "DEFAULT"
    keyframes :=
      [ { timestamp := 0.0
          joint_positions :=
            [("head", (0.0, 0.0, 0.0)), ("right_hand", (0.3, 0.5, 0.0)),
             ("left_hand", (-0.3, 0.5, 0.0)), ("torso", (0.0, 0.0, 0.0))]
          duration := 1.0 } ]
    transition_duration := 0.2 }

/-- Pose library dict built by `_initialize_pose_library` (insertion order). -/
def pose_library : List (String × AvatarPose) :=
  [("HELLO", HELLO_pose), ("HOW", HOW_pose), ("YOU", YOU_pose),
   ("THANK-YOU", THANK_YOU_pose), ("YES", YES_pose), ("NO", NO_pose),
   ("DEFAULT", DEFAULT_pose)]

/-- Transition-rules dict of `_initialize_transition_rules` (lines 191-201). -/
def transition_rules : List (String × List (String × ℚ)) :=
  [ ("HELLO", [("HOW", 0.3), ("YOU", 0.2), ("DEFAULT", 0.4)])
  , ("HOW", [("YOU", 0.2), ("HELLO", 0.3), ("DEFAULT", 0.3)])
  , ("YOU", [("HELLO", 0.2), ("DEFAULT", 0.3)])
  , ("THANK-YOU", [("DEFAULT", 0.5)])
  , ("YES", [("DEFAULT", 0.2)])
  , ("NO", [("DEFAULT", 0.2)])
  , ("DEFAULT", [("HELLO", 0.3), ("HOW", 0.3), ("YOU", 0.2), ("THANK-YOU", 0.4)]) ]

/-- Model of Python str.upper() (ASCII range, which covers every key the
    tables hold): uppercase every character.  Written directly over the
    character list so that it evaluates on concrete strings. -/
def py_upper (s : String) : String := ⟨s.data.map Char.toUpper⟩

/-- ISLGlossMapper.get_pose (lines 203-205): case-insensitive lookup with the
    DEFAULT pose as fallback (`pose_library["DEFAULT"] = DEFAULT_pose`). -/
def get_pose (gloss_word : String) : AvatarPose :=
  (pose_library.lookup (py_upper gloss_word)).getD DEFAULT_pose

/-- ISLGlossMapper.get_transition_duration (lines 207-210): two-level
    case-insensitive lookup, fallback 0.3 seconds. -/
def get_transition_duration (from_pose to_pose : String) : ℚ :=
  let from_rules := (transition_rules.lookup (py_upper from_pose)).getD []
  (from_rules.lookup (py_upper to_pose)).getD 0.3

/-- Keyframe as emitted by `_generate_keyframe_sequence`.  Besides the value
    fields it records object provenance, the one observable the Python heap
    has that values do not: `fresh_copy` is `true` when the emitted frame's
    joint-position dict was allocated by `.copy()` (line 300) and `false`
    when the field directly aliases a dict owned by the pose library
    (line 312, no copy). -/
structure EmittedKeyFrame where
  timestamp : ℚ
  joint_positions : JointMap
  duration : ℚ
  fresh_copy : Bool
deriving DecidableEq

/-- Sum `sum(kf.duration for kf in pose.keyframes)` (line 306). -/
def pose_duration_sum (pose : AvatarPose) : ℚ :=
  (pose.keyframes.map KeyFrame.duration).sum

/-- Loop body lines 296-303: emit every keyframe of `pose` shifted by the
    running clock; the joint dict is copied (`.copy()`), the duration kept. -/
def emit_pose (current_time : ℚ) (pose : AvatarPose) : List EmittedKeyFrame :=
  pose.keyframes.map fun keyframe =>
    { timestamp := current_time + keyframe.timestamp
      joint_positions := keyframe.joint_positions
      duration := keyframe.duration
      fresh_copy := true }

/-- Loop state of `_generate_keyframe_sequence`: accumulated keyframes, the
    running clock, the previous-pose cursor, and whether at least one word
    has been consumed (the `i > 0` test of line 292). -/
structure BuildState where
  keyframes : List EmittedKeyFrame
  current_time : ℚ
  previous_pose : String
  past_first : Bool
deriving DecidableEq

/-- Body of the `for i, word in enumerate(gloss_words)` loop (lines 288-307). -/
def build_step (st : BuildState) (word : String) : BuildState :=
  let pose := get_pose word
  let t := if st.past_first
    then st.current_time + get_transition_duration st.previous_pose word
    else st.current_time
  { keyframes := st.keyframes ++ emit_pose t pose
    current_time := t + pose_duration_sum pose
    previous_pose := word
    past_first := true }

/-- Value `get_pose("DEFAULT").keyframes[0]` used for the rest frame
    (line 312); the DEFAULT pose has one keyframe, so `headD` never falls
    back to its dummy argument. -/
def default_first_keyframe : KeyFrame :=
  ((get_pose "DEFAULT").keyframes).headD
    { timestamp := 0, joint_positions := [], duration := 0 }

/-- AvatarAnimationEngine._generate_keyframe_sequence (lines 282-317): fold
    the loop body over the words, then append the final rest keyframe at
    `current_time + 0.5` with the DEFAULT pose's first keyframe's
    joint-position dict (not copied) and duration 0.5. -/
def _generate_keyframe_sequence (gloss_words : List String) : List EmittedKeyFrame :=
  let st := gloss_words.foldl build_step
    { keyframes := [], current_time := 0, previous_pose := "DEFAULT", past_first := false }
  st.keyframes ++
    [{ timestamp := st.current_time + 0.5
       joint_positions := default_first_keyframe.joint_positions
       duration := 0.5
       fresh_copy := false }]

/-- Model of Python str.split() with no argument: split on runs of
    whitespace, producing no empty tokens.  `acc` holds the characters of
    the token in progress, in reverse. -/
def py_split_words : List Char → List Char → List String
  | [], acc => if acc = [] then [] else [⟨acc.reverse⟩]
  | c :: rest, acc =>
    if c.isWhitespace then
      if acc = [] then py_split_words rest []
      else ⟨acc.reverse⟩ :: py_split_words rest []
    else py_split_words rest (c :: acc)

/-- AvatarAnimationEngine._parse_gloss (lines 266-280):
    `[w.strip() for w in isl_gloss.split() if w.strip()]` — since split()
    already yields non-empty whitespace-free tokens, the strip and the
    filter are identities; the compound-sign loop (lines 272-278) appends
    each word unchanged in both of its branches. -/
def _parse_gloss (isl_gloss : String) : List String :=
  let words := py_split_words isl_gloss.data []
  words.map fun word => word

/-- Recursion form of the builder loop: the keyframes the loop emits from a
    given loop state onward.  Step 2 of the spec's timeline algorithm
    (emit shifted copies of each pose keyframe) written as plain recursion;
    related to the foldl implementation by `foldl_build_step_keyframes`. -/
def token_frames (past_first : Bool) (current_time : ℚ) (previous_pose : String) :
    List String → List EmittedKeyFrame
  | [] => []
  | word :: rest =>
    let pose := get_pose word
    let t := if past_first then current_time + get_transition_duration previous_pose word
      else current_time
    emit_pose t pose ++ token_frames true (t + pose_duration_sum pose) word rest

/-- Recursion form of the running clock: the value of `current_time` after
    the builder loop has consumed the remaining words. -/
def clock_after (past_first : Bool) (current_time : ℚ) (previous_pose : String) :
    List String → ℚ
  | [] => current_time
  | word :: rest =>
    let t := if past_first then current_time + get_transition_duration previous_pose word
      else current_time
    clock_after true (t + pose_duration_sum (get_pose word)) word rest

/-- Final rest keyframe appended at lines 310-315, as a function of the clock
    value reached after the loop. -/
def rest_keyframe (current_time : ℚ) : EmittedKeyFrame :=
  { timestamp := current_time + 0.5
    joint_positions := default_first_keyframe.joint_positions
    duration := 0.5
    fresh_copy := false }

/-- Sum of the transition durations the builder uses for a token sequence:
    one lookup per adjacent pair of tokens (none before the first token). -/
def transitions_used : List String → ℚ
  | [] => 0
  | [_] => 0
  | a :: b :: rest => get_transition_duration a b + transitions_used (b :: rest)

/-- Sum over the tokens of the keyframe-duration sum of each token's pose. -/
def pose_durations_total (ws : List String) : ℚ :=
  (ws.map fun w => pose_duration_sum (get_pose w)).sum

/-- Transition sum along a list given the preceding token. -/
def transitions_from (prev : String) : List String → ℚ
  | [] => 0
  | w :: rest => get_transition_duration prev w + transitions_from w rest

/-- Facts about a pose that the ordering proofs use: its own keyframe
    timestamps are non-decreasing, and every timestamp lies between 0 and the
    pose's keyframe-duration sum (so the clock advance of line 306 moves the
    clock past every emitted timestamp). -/
def pose_ok (p : AvatarPose) : Prop :=
  List.Chain' (· ≤ ·) (p.keyframes.map KeyFrame.timestamp) ∧
  0 ≤ pose_duration_sum p ∧
  ∀ kf ∈ p.keyframes, 0 ≤ kf.timestamp ∧ kf.timestamp ≤ pose_duration_sum p

/-- JSON values, modelling the Python dict/list/str/float payloads that
    `json.dumps` serializes; objects keep insertion order like Python dicts. -/
inductive Json where
  | null
  | bool (b : Bool)
  | num (q : ℚ)
  | str (s : String)
  | arr (elems : List Json)
  | obj (fields : List (String × Json))

/-- String field access `d.get(key)` on a JSON object (None when absent or
    when the value is not an object). -/
def json_field (j : Json) (key : String) : Option Json :=
  match j with
  | .obj fields => fields.lookup key
  | _ => none

/-- Engine constant `self.fps = 30`. -/
def engine_fps : ℕ := 30

/-- Engine constant `self.video_width = 400`. -/
def video_width : ℕ := 400

/-- Engine constant `self.video_height = 600`. -/
def video_height : ℕ := 600

/-- Python `int()` on a float value: truncation toward zero. -/
def int_trunc (q : ℚ) : ℤ := q.num.tdiv (q.den : ℤ)

/-- Python `round(x, 2)`.  Python rounds half-to-even on floats; every value
    the engine passes here is a multiple of 1/10 (the pose data holds only
    such durations), where no tie at the second decimal can occur, so
    rounding to the nearest multiple of 1/100 is exact and tie-handling is
    irrelevant. -/
def round2 (q : ℚ) : ℚ := round (q * 100) / 100

/-- AvatarAnimationEngine._create_visual_frame (lines 354-430): map the
    head/right-hand/left-hand joints (with the documented default
    coordinates when absent) into pixel coordinates of the 400x600 canvas.
    The literal SVG text and its base64 data URL are an opaque rendering of
    exactly these numbers and the frame number; no claim depends on the
    text, so the model records the computed coordinates and the canvas
    dimensions in place of the two derived strings. -/
def _create_visual_frame (keyframe : EmittedKeyFrame) (frame_number : ℕ) : Json :=
  let head_pos := (keyframe.joint_positions.lookup "head").getD (0, 0, 0)
  let right_hand_pos := (keyframe.joint_positions.lookup "right_hand").getD (0.3, 0.5, 0)
  let left_hand_pos := (keyframe.joint_positions.lookup "left_hand").getD (-0.3, 0.5, 0)
  let head_x : ℤ := ((video_width / 2 : ℕ) : ℤ) + int_trunc (head_pos.1 * video_width * 0.3)
  let head_y : ℤ := int_trunc (video_height * 0.25 + head_pos.2.1 * video_height * 0.1)
  let right_hand_x : ℤ := ((video_width / 2 : ℕ) : ℤ) + int_trunc (right_hand_pos.1 * video_width)
  let right_hand_y : ℤ :=
    int_trunc (video_height * 0.4 + (1 - right_hand_pos.2.1) * video_height * 0.4)
  let left_hand_x : ℤ := ((video_width / 2 : ℕ) : ℤ) + int_trunc (left_hand_pos.1 * video_width)
  let left_hand_y : ℤ :=
    int_trunc (video_height * 0.4 + (1 - left_hand_pos.2.1) * video_height * 0.4)
  Json.obj
    [ ("type", .str "svg")
    , ("width", .num video_width)
    , ("height", .num video_height)
    , ("frame_number", .num frame_number)
    , ("svg_coords", .arr [.num head_x, .num head_y, .num right_hand_x, .num right_hand_y,
        .num left_hand_x, .num left_hand_y]) ]

/-- Encoding of one (x, y, z) tuple: `json.dumps` writes a Python tuple as a
    JSON array. -/
def vec3_json (v : Vec3) : Json := .arr [.num v.1, .num v.2.1, .num v.2.2]

/-- Encoding of a joint-position dict as a JSON object. -/
def joint_positions_json (jm : JointMap) : Json :=
  .obj (jm.map fun p => (p.1, vec3_json p.2))

/-- Frame dict built in the body of the loop of `_generate_video_frames`
    (lines 327-336). -/
def frame_data_json (total i : ℕ) (kf : EmittedKeyFrame) : Json :=
  .obj
    [ ("frame_number", .num i)
    , ("timestamp", .num kf.timestamp)
    , ("duration", .num kf.duration)
    , ("joint_positions", joint_positions_json kf.joint_positions)
    , ("interpolation", .str (if i < total - 1 then "linear" else "hold"))
    , ("visual_frame", _create_visual_frame kf i) ]

/-- The `for i, keyframe in enumerate(keyframes)` loop of
    `_generate_video_frames`, with the running index made explicit. -/
def animation_frames_from (total i : ℕ) : List EmittedKeyFrame → List Json
  | [] => []
  | kf :: rest => frame_data_json total i kf :: animation_frames_from total (i + 1) rest

/-- The `duration` entry of the video metadata (line 344):
    `keyframes[-1].timestamp + keyframes[-1].duration if keyframes else 0`. -/
def video_duration_field (keyframes : List EmittedKeyFrame) : ℚ :=
  match keyframes.getLast? with
  | some kf => kf.timestamp + kf.duration
  | none => 0

/-- AvatarAnimationEngine._generate_video_frames (lines 319-352): the video
    metadata dict that the Python function JSON-serializes and
    base64-encodes into `video_data_base64`.  The two transport codecs are
    the Python standard library's `json` and `base64` modules, which are
    mutually inverse on this data, so the model works with the JSON value
    itself; the base64 layer's losslessness is established separately by
    `b64decode_b64encode` below. -/
def _generate_video_frames (keyframes : List EmittedKeyFrame) : Json :=
  .obj
    [ ("format", .str "isl_animation_data")
    , ("version", .str "1.0")
    , ("frames", .arr (animation_frames_from keyframes.length 0 keyframes))
    , ("total_frames", .num keyframes.length)
    , ("duration", .num (video_duration_field keyframes))
    , ("fps", .num engine_fps)
    , ("width", .num video_width)
    , ("height", .num video_height) ]

/-- Deterministic fields of the animation_data dict built by
    `generate_animation_sequence` (lines 248-260); the two wall-clock fields
    `processing_time_ms` and `timestamp` are omitted (no claim depends on
    them). -/
structure AnimationData where
  gloss_input : String
  parsed_words : List String
  total_duration_seconds : ℚ
  frame_count : ℤ
  fps : ℕ
  resolution : String
  keyframe_count : ℕ
  video_format : String
  video_data : Json

/-- AvatarAnimationEngine.generate_animation_sequence (lines 221-264). -/
def generate_animation_sequence (isl_gloss : String) : AnimationData :=
  let gloss_words := _parse_gloss isl_gloss
  let keyframes := _generate_keyframe_sequence gloss_words
  let total_duration := (keyframes.map EmittedKeyFrame.duration).sum
  { gloss_input := isl_gloss
    parsed_words := gloss_words
    total_duration_seconds := round2 total_duration
    frame_count := int_trunc (total_duration * engine_fps)
    fps := engine_fps
    resolution := "400x600"
    keyframe_count := keyframes.length
    video_format := "webm"
    video_data := _generate_video_frames keyframes }

/-- Property of being an integer multiple of one tenth; every duration in the
    pose library is one, hence so is every duration sum. -/
def tenth_mul (q : ℚ) : Prop := ∃ n : ℤ, q = n / 10

/-- Frames list read back from a decoded blob by stream_animation
    (websocket_handler.py line 133): `animation_json.get("frames", [])`. -/
def frames_of_blob (blob : Json) : List Json :=
  match json_field blob "frames" with
  | some (.arr xs) => xs
  | _ => []

/-- Fps read back from a decoded blob (line 134):
    `animation_json.get("fps", 30)`. -/
def fps_of_blob (blob : Json) : ℚ :=
  match json_field blob "fps" with
  | some (.num q) => q
  | _ => 30

/-- Decoding of one (x, y, z) JSON array back to a coordinate tuple. -/
def vec3_of_json : Json → Vec3
  | .arr [.num x, .num y, .num z] => (x, y, z)
  | _ => (0, 0, 0)

/-- Decoding of a joint-position JSON object back to a joint dict. -/
def joints_of_json : Json → JointMap
  | .obj fields => fields.map fun p => (p.1, vec3_of_json p.2)
  | _ => []

/-- Joint positions carried by one decoded frame dict. -/
def frame_joints (frame : Json) : JointMap :=
  joints_of_json ((json_field frame "joint_positions").getD .null)

/-- Base64 alphabet (RFC 4648), the encoding Python base64.b64encode uses
    for `video_data_base64`. -/
def b64_alphabet : List Char :=
  "ABCDEFGHIJKLMNOPQRSTUVWXYZabcdefghijklmnopqrstuvwxyz0123456789+/".toList

/-- Character for a six-bit group. -/
def b64_char (n : ℕ) : Char := b64_alphabet.getD n '?'

/-- Six-bit group for a character of the alphabet. -/
def b64_index (c : Char) : ℕ := b64_alphabet.indexOf c

/-- Base64 encoding of a byte string (bytes as naturals below 256):
    three bytes become four alphabet characters; a trailing group of one or
    two bytes is padded with '='. -/
def b64encode : List ℕ → List Char
  | [] => []
  | [a] => [b64_char (a / 4), b64_char (a % 4 * 16), '=', '=']
  | [a, b] => [b64_char (a / 4), b64_char (a % 4 * 16 + b / 16), b64_char (b % 16 * 4), '=']
  | a :: b :: c :: rest =>
    b64_char (a / 4) :: b64_char (a % 4 * 16 + b / 16) :: b64_char (b % 16 * 4 + c / 64) ::
      b64_char (c % 64) :: b64encode rest

/-- Base64 decoding: four characters back to three bytes, fewer at a padded
    tail. -/
def b64decode : List Char → List ℕ
  | c1 :: c2 :: c3 :: c4 :: rest =>
    if c3 = '=' then [b64_index c1 * 4 + b64_index c2 / 16]
    else if c4 = '=' then
      [b64_index c1 * 4 + b64_index c2 / 16, b64_index c2 % 16 * 16 + b64_index c3 / 4]
    else
      (b64_index c1 * 4 + b64_index c2 / 16) :: (b64_index c2 % 16 * 16 + b64_index c3 / 4) ::
        (b64_index c3 % 4 * 64 + b64_index c4) :: b64decode rest
  | _ => []

/-- Connection metadata registered by `connect` (websocket_handler.py lines
    37-42).  The wall-clock fields (`connected_at`, `last_activity`) and the
    client address are never read by a claimed property and are omitted;
    the `frames_sent` counter is kept because `send_animation_frame`
    updates it. -/
structure ConnMeta where
  frames_sent : ℕ
deriving DecidableEq

/-- Transport model of one WebSocket: the list of outcomes of its future
    `send_text` calls, consumed one entry per send; an exhausted list means
    every further send succeeds.  `false` models `send_text` raising. -/
abbrev Socket := List Bool

/-- Cached view of an animation_data dict as `stream_animation` reads it
    (every read is a `.get` with a default).  `video_data = none` models a
    missing or empty `video_data_base64` string — e.g. the fallback artifact
    of `generate_avatar_animation` — and `some blob` a non-empty base64
    string decoding to the JSON value `blob`. -/
structure CachedAnimation where
  gloss_input : String
  parsed_words : List String
  total_duration_seconds : ℚ
  frame_count : ℤ
  fps : ℚ
  resolution : String
  video_data : Option Json

/-- State of AvatarStreamManager (lines 19-30): the three dicts, as maps
    keyed by stream id; cache entries carry their `cached_at` stamp. -/
structure ManagerState where
  active_connections : String → Option Socket
  animation_cache : String → Option (CachedAnimation × ℚ)
  connection_metadata : String → Option ConnMeta

/-- Dict insertion (replace-or-add). -/
def map_insert {α : Type} (m : String → Option α) (k : String) (v : α) :
    String → Option α :=
  fun q => if q = k then some v else m q

/-- Dict deletion (no-op when the key is absent, like the guarded `del`). -/
def map_erase {α : Type} (m : String → Option α) (k : String) :
    String → Option α :=
  fun q => if q = k then none else m q

/-- Outcome of one `send_animation_frame` invocation. -/
inductive SendOutcome where
  | notConnected
  | delivered
  | failed
deriving DecidableEq

/-- Record of one `send_animation_frame` invocation: which frame was offered
    to which stream and what happened. -/
structure SendEvent where
  stream_id : String
  frame : Json
  outcome : SendOutcome

/-- Metadata message of `stream_animation` (lines 106-118); the wall-clock
    `timestamp` entry is omitted. -/
def metadata_message (stream_id : String) (a : CachedAnimation) : Json :=
  .obj
    [ ("type", .str "animation_metadata")
    , ("stream_id", .str stream_id)
    , ("data", .obj
        [ ("total_duration", .num a.total_duration_seconds)
        , ("frame_count", .num a.frame_count)
        , ("fps", .num a.fps)
        , ("resolution", .str a.resolution)
        , ("gloss_input", .str a.gloss_input)
        , ("parsed_words", .arr (a.parsed_words.map Json.str)) ]) ]

/-- Per-frame message of the playback loop (lines 141-146). -/
def frame_message (stream_id : String) (frame : Json) : Json :=
  .obj [("type", .str "animation_frame"), ("stream_id", .str stream_id), ("data", frame)]

/-- Completion message (lines 155-163). -/
def completion_message (stream_id : String) (frames_sent : ℕ) (total_duration : ℚ) : Json :=
  .obj
    [ ("type", .str "animation_complete")
    , ("stream_id", .str stream_id)
    , ("data", .obj [("frames_sent", .num frames_sent),
        ("total_duration", .num total_duration)]) ]

/-- Error frame built by `send_error` (lines 180-188). -/
def error_frame (stream_id code message : String) : Json :=
  .obj
    [ ("type", .str "error")
    , ("stream_id", .str stream_id)
    , ("error", .obj [("code", .str code), ("message", .str message)]) ]

/-- AvatarStreamManager.connect (lines 32-44): register the socket and fresh
    metadata under the stream id (replacing any prior registration). -/
def connect (st : ManagerState) (stream_id : String) (socket : Socket) : ManagerState :=
  { st with
    active_connections := map_insert st.active_connections stream_id socket
    connection_metadata := map_insert st.connection_metadata stream_id { frames_sent := 0 } }

/-- AvatarStreamManager.disconnect (lines 46-58): drop the connection and its
    metadata; the animation cache is left alone. -/
def disconnect (st : ManagerState) (stream_id : String) : ManagerState :=
  { st with
    active_connections := map_erase st.active_connections stream_id
    connection_metadata := map_erase st.connection_metadata stream_id }

/-- AvatarStreamManager.store_animation_data (lines 60-66). -/
def store_animation_data (st : ManagerState) (stream_id : String) (a : CachedAnimation)
    (now : ℚ) : ManagerState :=
  { st with animation_cache := map_insert st.animation_cache stream_id (a, now) }

/-- AvatarStreamManager.send_animation_frame (lines 68-89): no connection →
    return False without a transport send; otherwise attempt the send,
    update `frames_sent` on success, and on a raised send error disconnect
    and return False.  The returned event list records this invocation. -/
def send_animation_frame (st : ManagerState) (stream_id : String) (frame : Json) :
    ManagerState × Bool × List SendEvent :=
  match st.active_connections stream_id with
  | none => (st, false, [⟨stream_id, frame, .notConnected⟩])
  | some socket =>
    let st1 := { st with
      active_connections := map_insert st.active_connections stream_id socket.tail }
    if socket.headD true then
      let st2 := { st1 with connection_metadata :=
        match st1.connection_metadata stream_id with
        | some meta =>
            map_insert st1.connection_metadata stream_id { frames_sent := meta.frames_sent + 1 }
        | none => st1.connection_metadata }
      (st2, true, [⟨stream_id, frame, .delivered⟩])
    else
      (disconnect st1 stream_id, false, [⟨stream_id, frame, .failed⟩])

/-- AvatarStreamManager.send_error (lines 178-190). -/
def send_error (st : ManagerState) (stream_id code message : String) :
    ManagerState × List SendEvent :=
  let r := send_animation_frame st stream_id (error_frame stream_id code message)
  (r.1, r.2.2)

/-- Playback loop of `stream_animation` (lines 140-152): send each frame in
    order, stopping at the first failed send; the `asyncio.sleep` pacing is
    timing only and leaves no trace in the state. -/
def stream_frames (stream_id : String) : ManagerState → List Json → ManagerState × List SendEvent
  | st, [] => (st, [])
  | st, frame :: rest =>
    let r := send_animation_frame st stream_id (frame_message stream_id frame)
    if r.2.1 then
      let r2 := stream_frames stream_id r.1 rest
      (r2.1, r.2.2 ++ r2.2)
    else (r.1, r.2.2)

/-- AvatarStreamManager.stream_animation (lines 91-176).  The model follows
    the source's control flow: cache miss → one ANIMATION_NOT_FOUND error
    send; no connection → return quietly; otherwise metadata frame first
    (abort if it fails), then either the frame loop followed by the
    completion frame (the source attempts the completion send even when the
    loop broke early), or, on a missing/empty `video_data_base64`, one
    NO_ANIMATION_DATA error send.  The DECODE_ERROR and STREAMING_ERROR
    handlers are unreachable in the model because the blob is already the
    decoded JSON value and no modelled operation raises. -/
def stream_animation (st : ManagerState) (stream_id : String) :
    ManagerState × List SendEvent :=
  match st.animation_cache stream_id with
  | none => send_error st stream_id "ANIMATION_NOT_FOUND" "Animation data not available"
  | some (animation_data, _cached_at) =>
    match st.active_connections stream_id with
    | none => (st, [])
    | some _ =>
      let r1 := send_animation_frame st stream_id (metadata_message stream_id animation_data)
      if !r1.2.1 then (r1.1, r1.2.2)
      else
        match animation_data.video_data with
        | some blob =>
          let frames := frames_of_blob blob
          let r2 := stream_frames stream_id r1.1 frames
          let r3 := send_animation_frame r2.1 stream_id
            (completion_message stream_id frames.length animation_data.total_duration_seconds)
          (r3.1, r1.2.2 ++ r2.2 ++ r3.2.2)
        | none =>
          let r2 := send_error r1.1 stream_id "NO_ANIMATION_DATA" "No animation frames available"
          (r2.1, r1.2.2 ++ r2.2)

/-- Key-set equality between the connection registry and the connection
    metadata dict. -/
def keys_eq (st : ManagerState) : Prop :=
  ∀ k, (st.active_connections k).isSome = (st.connection_metadata k).isSome

/-- Concrete manager state: one connected, healthy stream "s1" and an empty
    animation cache. -/
def demo_state : ManagerState :=
  { active_connections := fun k => if k = "s1" then some [] else none
    animation_cache := fun _ => none
    connection_metadata := fun k => if k = "s1" then some ⟨0⟩ else none }

/-- Cached view of the fallback animation dict that
    `generate_avatar_animation` returns on an engine exception
    (avatar_engine.py lines 474-480): the dict carries no
    `video_data_base64` key (and none of the metadata keys), so every
    `.get` read in `stream_animation` yields its default and the video data
    is absent. -/
def fallback_cached (isl_gloss : String) : CachedAnimation :=
  { gloss_input := isl_gloss
    parsed_words := []
    total_duration_seconds := 0
    frame_count := 0
    fps := 30
    resolution := "400x600"
    video_data := none }

/-- Concrete manager state: stream "s1" connected and healthy, its cache
    entry the fallback artifact (no video data). -/
def demo_state_cached : ManagerState :=
  { active_connections := fun k => if k = "s1" then some [] else none
    animation_cache := fun k => if k = "s1" then some (fallback_cached "HELLO", 0) else none
    connection_metadata := fun k => if k = "s1" then some ⟨0⟩ else none }

theorem foldl_build_step_keyframes (ws : List String) : ∀ st : BuildState,
    (ws.foldl build_step st).keyframes =
      st.keyframes ++ token_frames st.past_first st.current_time st.previous_pose ws := by
  induction ws with
  | nil => intro st; simp [token_frames]
  | cons w rest ih =>
    intro st
    simp only [List.foldl_cons, ih, build_step, token_frames, List.append_assoc]

theorem foldl_build_step_clock (ws : List String) : ∀ st : BuildState,
    (ws.foldl build_step st).current_time =
      clock_after st.past_first st.current_time st.previous_pose ws := by
  induction ws with
  | nil => intro st; simp [clock_after]
  | cons w rest ih =>
    intro st
    simp only [List.foldl_cons, ih, build_step, clock_after]

/-- Closed form of the builder: token frames followed by the rest frame. -/
theorem generate_keyframe_sequence_eq (ws : List String) :
    _generate_keyframe_sequence ws =
      token_frames false 0 "DEFAULT" ws ++
        [rest_keyframe (clock_after false 0 "DEFAULT" ws)] := by
  simp only [_generate_keyframe_sequence, rest_keyframe,
    foldl_build_step_keyframes, foldl_build_step_clock, List.nil_append]

theorem clock_after_true (ws : List String) : ∀ c prev,
    clock_after true c prev ws = c + transitions_from prev ws + pose_durations_total ws := by
  induction ws with
  | nil => intro c prev; simp [clock_after, transitions_from, pose_durations_total]
  | cons w rest ih =>
    intro c prev
    simp only [clock_after, if_pos rfl, if_true, ih, transitions_from,
      pose_durations_total, List.map_cons, List.sum_cons]
    ring

theorem transitions_from_eq_used (w : String) (rest : List String) :
    transitions_from w rest = transitions_used (w :: rest) := by
  induction rest generalizing w with
  | nil => simp [transitions_from, transitions_used]
  | cons b r ih => simp only [transitions_from, transitions_used, ih]

/-- Clock value after the whole loop: all transitions plus all pose durations. -/
theorem clock_after_closed (ws : List String) :
    clock_after false 0 "DEFAULT" ws = transitions_used ws + pose_durations_total ws := by
  cases ws with
  | nil => simp [clock_after, transitions_used, pose_durations_total]
  | cons w rest =>
    simp only [clock_after, clock_after_true, transitions_from_eq_used,
      pose_durations_total, List.map_cons, List.sum_cons, Bool.false_eq_true, if_false]
    ring

theorem HELLO_pose_ok : pose_ok HELLO_pose := by
  refine ⟨?_, ?_, ?_⟩ <;>
    simp [HELLO_pose, pose_duration_sum, List.chain'_cons] <;> norm_num

theorem HOW_pose_ok : pose_ok HOW_pose := by
  refine ⟨?_, ?_, ?_⟩ <;>
    simp [HOW_pose, pose_duration_sum, List.chain'_cons] <;> norm_num

theorem YOU_pose_ok : pose_ok YOU_pose := by
  refine ⟨?_, ?_, ?_⟩ <;>
    simp [YOU_pose, pose_duration_sum, List.chain'_cons] <;> norm_num

theorem THANK_YOU_pose_ok : pose_ok THANK_YOU_pose := by
  refine ⟨?_, ?_, ?_⟩ <;>
    simp [THANK_YOU_pose, pose_duration_sum, List.chain'_cons] <;> norm_num

theorem YES_pose_ok : pose_ok YES_pose := by
  refine ⟨?_, ?_, ?_⟩ <;>
    simp [YES_pose, pose_duration_sum, List.chain'_cons] <;> norm_num

theorem NO_pose_ok : pose_ok NO_pose := by
  refine ⟨?_, ?_, ?_⟩ <;>
    simp [NO_pose, pose_duration_sum, List.chain'_cons] <;> norm_num

theorem DEFAULT_pose_ok : pose_ok DEFAULT_pose := by
  refine ⟨?_, ?_, ?_⟩ <;>
    simp [DEFAULT_pose, pose_duration_sum, List.chain'_cons] <;> norm_num

/-- Whatever the input token, `get_pose` returns one of the seven library
    poses (the DEFAULT pose when the uppercased token is not a key). -/
theorem get_pose_cases (w : String) :
    get_pose w = HELLO_pose ∨ get_pose w = HOW_pose ∨ get_pose w = YOU_pose ∨
    get_pose w = THANK_YOU_pose ∨ get_pose w = YES_pose ∨ get_pose w = NO_pose ∨
    get_pose w = DEFAULT_pose := by
  unfold get_pose
  simp only [pose_library, List.lookup]
  repeat' split
  all_goals simp

theorem get_pose_ok (w : String) : pose_ok (get_pose w) := by
  rcases get_pose_cases w with h | h | h | h | h | h | h <;> rw [h]
  exacts [HELLO_pose_ok, HOW_pose_ok, YOU_pose_ok, THANK_YOU_pose_ok,
    YES_pose_ok, NO_pose_ok, DEFAULT_pose_ok]

/-- Every transition duration the table or its fallback can produce is
    nonnegative. -/
theorem get_transition_duration_nonneg (a b : String) :
    0 ≤ get_transition_duration a b := by
  unfold get_transition_duration
  simp only [transition_rules, List.lookup]
  repeat' split
  all_goals simp only [List.lookup]
  all_goals repeat' split
  all_goals norm_num

/-- Invariant of the builder loop: from any loop state, the frames emitted by
    the remaining words have non-decreasing timestamps, every timestamp lies
    between the entry clock and the exit clock, and the clock never moves
    backwards. -/
theorem token_frames_invariant (ws : List String) : ∀ (pf : Bool) (c : ℚ) (prev : String),
    List.Chain' (· ≤ ·) ((token_frames pf c prev ws).map EmittedKeyFrame.timestamp) ∧
    (∀ f ∈ token_frames pf c prev ws,
      c ≤ f.timestamp ∧ f.timestamp ≤ clock_after pf c prev ws) ∧
    c ≤ clock_after pf c prev ws := by
  induction ws with
  | nil => intro pf c prev; simp [token_frames, clock_after]
  | cons w rest ih =>
    intro pf c prev
    obtain ⟨hchain, hd0, hbounds⟩ := get_pose_ok w
    have htrans := get_transition_duration_nonneg prev w
    simp only [token_frames, clock_after]
    set t := if pf = true then c + get_transition_duration prev w else c with ht
    have hct : c ≤ t := by
      cases pf
      · simp [ht]
      · simp only [ht, if_true]; linarith
    set D := pose_duration_sum (get_pose w) with hD
    obtain ⟨ih1, ih2, ih3⟩ := ih true (t + D) w
    have hemit_ts : (emit_pose t (get_pose w)).map EmittedKeyFrame.timestamp =
        (get_pose w).keyframes.map (fun kf => t + kf.timestamp) := by
      simp [emit_pose, List.map_map]
    refine ⟨?_, ?_, by linarith⟩
    · rw [List.map_append, List.chain'_append]
      refine ⟨?_, ih1, ?_⟩
      · rw [hemit_ts, List.chain'_map]
        exact ((List.chain'_map _).mp hchain).imp fun a b h => by
          exact add_le_add_left h t
      · intro x hx y hy
        rw [Option.mem_def] at hx hy
        have hx' := List.mem_of_getLast?_eq_some hx
        have hy' := List.mem_of_mem_head? (by rw [Option.mem_def]; exact hy)
        rw [hemit_ts, List.mem_map] at hx'
        obtain ⟨kf, hkf, rfl⟩ := hx'
        rw [List.mem_map] at hy'
        obtain ⟨f, hf, rfl⟩ := hy'
        have h1 := (hbounds kf hkf).2
        have h2 := (ih2 f hf).1
        linarith
    · intro f hf
      rw [List.mem_append] at hf
      rcases hf with hf | hf
      · simp only [emit_pose, List.mem_map] at hf
        obtain ⟨kf, hkf, rfl⟩ := hf
        obtain ⟨hk0, hkD⟩ := hbounds kf hkf
        refine ⟨by simp; linarith, ?_⟩
        simp only
        linarith
      · obtain ⟨h1, h2⟩ := ih2 f hf
        exact ⟨by linarith, h2⟩

/-- Every frame the builder loop emits for a token carries a joint dict
    allocated by `.copy()`. -/
theorem token_frames_fresh (ws : List String) : ∀ (pf : Bool) (c : ℚ) (prev : String),
    ∀ f ∈ token_frames pf c prev ws, f.fresh_copy = true := by
  induction ws with
  | nil => intro pf c prev f hf; simp [token_frames] at hf
  | cons w rest ih =>
    intro pf c prev f hf
    simp only [token_frames, List.mem_append] at hf
    rcases hf with hf | hf
    · simp only [emit_pose, List.mem_map] at hf
      obtain ⟨kf, _, rfl⟩ := hf
      rfl
    · exact ih _ _ _ f hf

/-- C4: for every token sequence (any list of strings), the timestamps of the
    keyframes produced by `_generate_keyframe_sequence` are monotonically
    non-decreasing from the first emitted keyframe to the last. -/
theorem timeline_timestamps_nondecreasing (gloss_words : List String) :
    List.Chain' (· ≤ ·)
      ((_generate_keyframe_sequence gloss_words).map EmittedKeyFrame.timestamp) := by
  rw [generate_keyframe_sequence_eq, List.map_append, List.chain'_append]
  obtain ⟨h1, h2, h3⟩ := token_frames_invariant gloss_words false 0 "DEFAULT"
  refine ⟨h1, by simp, ?_⟩
  intro x hx y hy
  rw [Option.mem_def] at hx hy
  have hx' := List.mem_of_getLast?_eq_some hx
  rw [List.mem_map] at hx'
  obtain ⟨f, hf, rfl⟩ := hx'
  simp only [List.map_cons, List.map_nil, List.head?_cons, Option.some.injEq,
    rest_keyframe] at hy
  have hb := (h2 f hf).2
  rw [← hy]
  norm_num
  linarith

/-- C2: for every non-empty token sequence, the last keyframe the timeline
    builder emits is the rest keyframe: its timestamp is the sum of all
    transition durations used plus the sum of all per-token pose keyframe
    durations plus 0.5, its joint positions are the DEFAULT pose's first
    keyframe's joint positions, and its duration is 0.5 seconds. -/
theorem final_rest_keyframe_spec (gloss_words : List String) (_h : gloss_words ≠ []) :
    (_generate_keyframe_sequence gloss_words).getLast? = some
      { timestamp := transitions_used gloss_words + pose_durations_total gloss_words + 0.5
        joint_positions := default_first_keyframe.joint_positions
        duration := 0.5
        fresh_copy := false } := by
  rw [generate_keyframe_sequence_eq]
  simp [rest_keyframe, clock_after_closed]

/-- Witness for `final_rest_keyframe_spec` at the concrete input ["HELLO"]. -/
theorem final_rest_keyframe_spec_witness :
    (["HELLO"] : List String) ≠ [] ∧
    (_generate_keyframe_sequence ["HELLO"]).getLast? = some
      { timestamp := transitions_used ["HELLO"] + pose_durations_total ["HELLO"] + 0.5
        joint_positions := default_first_keyframe.joint_positions
        duration := 0.5
        fresh_copy := false } :=
  ⟨by simp, final_rest_keyframe_spec ["HELLO"] (by simp)⟩

/-- C5: for the empty token sequence the builder's output is exactly one
    keyframe, at timestamp 0.5, carrying the DEFAULT pose's first keyframe's
    joint positions (and duration 0.5). -/
theorem empty_tokens_single_rest_keyframe :
    _generate_keyframe_sequence [] =
      [{ timestamp := 0.5
         joint_positions := default_first_keyframe.joint_positions
         duration := 0.5
         fresh_copy := false }] := by
  rw [generate_keyframe_sequence_eq]
  simp only [token_frames, clock_after, rest_keyframe, List.nil_append]
  norm_num

/-- C3 counterexample: in the timeline for the concrete token list ["HELLO"],
    not every emitted keyframe carries a freshly copied joint dict — the
    final rest keyframe (line 312) aliases the DEFAULT pose's first
    keyframe's dict, refuting the claim that no emitted keyframe (including
    the final rest keyframe) aliases a pose-library structure. -/
theorem rest_frame_aliasing_cex :
    ¬ (∀ f ∈ _generate_keyframe_sequence ["HELLO"], f.fresh_copy = true) := by
  intro h
  have hmem : rest_keyframe (clock_after false 0 "DEFAULT" ["HELLO"]) ∈
      _generate_keyframe_sequence ["HELLO"] := by
    rw [generate_keyframe_sequence_eq]
    simp
  have := h _ hmem
  simp [rest_keyframe] at this

/-- C3 (amended): every keyframe the builder emits for a token is a fresh
    copy of the corresponding pose-library keyframe — the token part of the
    timeline is exactly `token_frames` (timestamp = clock + the library
    timestamp, duration unchanged, joint dict copied, `fresh_copy = true`) —
    but the final rest keyframe's joint-position mapping is not copied: it
    aliases the DEFAULT pose's first keyframe's mapping. -/
theorem token_frames_fresh_rest_aliases (gloss_words : List String) :
    (_generate_keyframe_sequence gloss_words).dropLast =
      token_frames false 0 "DEFAULT" gloss_words ∧
    (∀ f ∈ token_frames false 0 "DEFAULT" gloss_words, f.fresh_copy = true) ∧
    (_generate_keyframe_sequence gloss_words).getLast?.map EmittedKeyFrame.fresh_copy =
      some false ∧
    (_generate_keyframe_sequence gloss_words).getLast?.map EmittedKeyFrame.joint_positions =
      some default_first_keyframe.joint_positions := by
  refine ⟨?_, token_frames_fresh _ _ _ _, ?_, ?_⟩ <;>
    rw [generate_keyframe_sequence_eq] <;>
    simp [rest_keyframe]

/-- C6: `get_pose` and `get_transition_duration` are total and
    case-insensitive: every string maps to one of the defined library poses,
    the DEFAULT pose is returned exactly when the uppercased token is not a
    key, the transition lookup falls back to 0.3 when the uppercased pair is
    absent, and the results depend only on the uppercased inputs. -/
theorem pose_and_transition_lookup_total :
    (∀ w : String, get_pose w ∈ pose_library.map Prod.snd) ∧
    (∀ w : String, pose_library.lookup (py_upper w) = none → get_pose w = DEFAULT_pose) ∧
    (∀ (w : String) (p : AvatarPose),
      pose_library.lookup (py_upper w) = some p → get_pose w = p) ∧
    (∀ a b : String,
      ((transition_rules.lookup (py_upper a)).getD []).lookup (py_upper b) = none →
        get_transition_duration a b = 0.3) ∧
    (∀ v w : String, py_upper v = py_upper w → get_pose v = get_pose w) ∧
    (∀ a b a' b' : String, py_upper a = py_upper a' → py_upper b = py_upper b' →
      get_transition_duration a b = get_transition_duration a' b') := by
  refine ⟨?_, ?_, ?_, ?_, ?_, ?_⟩
  · intro w
    rcases get_pose_cases w with h | h | h | h | h | h | h <;> rw [h] <;>
      simp [pose_library]
  · intro w h
    simp [get_pose, h]
  · intro w p h
    simp [get_pose, h]
  · intro a b h
    simp [get_transition_duration, h]
  · intro v w h
    simp [get_pose, h]
  · intro a b a' b' ha hb
    simp [get_transition_duration, ha, hb]

/-- Witness for `pose_and_transition_lookup_total`: concrete unseen token,
    concrete unseen pair, concrete case-insensitive pair. -/
theorem pose_and_transition_lookup_total_witness :
    get_pose "xyzzy" = DEFAULT_pose ∧
    get_transition_duration "xyzzy" "plugh" = 0.3 ∧
    get_pose "hello" = get_pose "HELLO" ∧
    get_transition_duration "hello" "You" = get_transition_duration "HELLO" "YOU" :=
  ⟨pose_and_transition_lookup_total.2.1 "xyzzy"
      (by simp [py_upper, pose_library, List.lookup_cons]),
   pose_and_transition_lookup_total.2.2.2.1 "xyzzy" "plugh"
      (by simp [py_upper, transition_rules, List.lookup_cons]),
   pose_and_transition_lookup_total.2.2.2.2.1 "hello" "HELLO" (by simp [py_upper]),
   pose_and_transition_lookup_total.2.2.2.2.2 "hello" "You" "HELLO" "YOU"
      (by simp [py_upper]) (by simp [py_upper])⟩

/-- Durations are copied unchanged, so the duration sum of the token part of
    the timeline is the sum of the per-token pose duration sums. -/
theorem token_frames_duration_sum (ws : List String) : ∀ (pf : Bool) (c : ℚ) (prev : String),
    ((token_frames pf c prev ws).map EmittedKeyFrame.duration).sum =
      pose_durations_total ws := by
  induction ws with
  | nil => intro pf c prev; simp [token_frames, pose_durations_total]
  | cons w rest ih =>
    intro pf c prev
    simp only [token_frames, List.map_append, List.sum_append, ih,
      pose_durations_total, List.map_cons, List.sum_cons]
    congr 1
    simp [emit_pose, List.map_map, pose_duration_sum]
    rfl

theorem tenth_mul_add {a b : ℚ} (ha : tenth_mul a) (hb : tenth_mul b) :
    tenth_mul (a + b) := by
  obtain ⟨m, rfl⟩ := ha
  obtain ⟨n, rfl⟩ := hb
  exact ⟨m + n, by push_cast; ring⟩

theorem pose_duration_sum_tenth (w : String) : tenth_mul (pose_duration_sum (get_pose w)) := by
  rcases get_pose_cases w with h | h | h | h | h | h | h <;> rw [h]
  · exact ⟨13, by norm_num [pose_duration_sum, HELLO_pose]⟩
  · exact ⟨12, by norm_num [pose_duration_sum, HOW_pose]⟩
  · exact ⟨10, by norm_num [pose_duration_sum, YOU_pose]⟩
  · exact ⟨17, by norm_num [pose_duration_sum, THANK_YOU_pose]⟩
  · exact ⟨10, by norm_num [pose_duration_sum, YES_pose]⟩
  · exact ⟨9, by norm_num [pose_duration_sum, NO_pose]⟩
  · exact ⟨10, by norm_num [pose_duration_sum, DEFAULT_pose]⟩

theorem pose_durations_total_tenth (ws : List String) :
    tenth_mul (pose_durations_total ws) := by
  induction ws with
  | nil => exact ⟨0, by simp [pose_durations_total]⟩
  | cons w rest ih =>
    have : pose_durations_total (w :: rest) =
        pose_duration_sum (get_pose w) + pose_durations_total rest := by
      simp [pose_durations_total]
    rw [this]
    exact tenth_mul_add (pose_duration_sum_tenth w) ih

/-- Rounding to two decimals is exact on multiples of one tenth. -/
theorem round2_tenth {q : ℚ} (h : tenth_mul q) : round2 q = q := by
  obtain ⟨n, rfl⟩ := h
  have : (n : ℚ) / 10 * 100 = ((n * 10 : ℤ) : ℚ) := by push_cast; ring
  rw [round2, this, round_intCast]
  push_cast
  ring

/-- C1 counterexample: at the concrete gloss "HELLO YOU" the recorded
    totalDurationSeconds is 2.8 (the sum of the emitted keyframe durations,
    which omits transition time), while the claimed formula — per-token pose
    durations plus transitions plus the trailing rest — gives 3.0, and the
    last keyframe's timestamp plus its duration (the packaged blob's
    duration field) gives 3.5.  The claimed conjunction therefore fails. -/
theorem total_duration_formulas_disagree_cex :
    ¬ ((generate_animation_sequence "HELLO YOU").total_duration_seconds =
        transitions_used (_parse_gloss "HELLO YOU") +
          pose_durations_total (_parse_gloss "HELLO YOU") + 0.5 ∧
      (generate_animation_sequence "HELLO YOU").total_duration_seconds =
        video_duration_field (_generate_keyframe_sequence (_parse_gloss "HELLO YOU"))) := by
  intro h
  have h1 : (generate_animation_sequence "HELLO YOU").total_duration_seconds = 14 / 5 := by
    simp [generate_animation_sequence, _parse_gloss, py_split_words,
      generate_keyframe_sequence_eq, token_frames, clock_after, rest_keyframe,
      emit_pose, get_pose, get_transition_duration, py_upper, pose_library,
      transition_rules, List.lookup_cons, pose_duration_sum, HELLO_pose, YOU_pose,
      round2, round_eq]
    norm_num
  have h2 : transitions_used (_parse_gloss "HELLO YOU") +
      pose_durations_total (_parse_gloss "HELLO YOU") + (0.5 : ℚ) = 3 := by
    simp [_parse_gloss, py_split_words, transitions_used, pose_durations_total,
      get_pose, get_transition_duration, py_upper, pose_library, transition_rules,
      List.lookup_cons, pose_duration_sum, HELLO_pose, YOU_pose]
    norm_num
  rw [h1, h2] at h
  exact absurd h.1 (by norm_num)

/-- C1 (amended): the `total_duration_seconds` the artifact records equals
    the sum of the emitted keyframe durations — the per-token pose durations
    plus the trailing rest's 0.5 s, with no transition time — while the
    packaged blob's `duration` field equals the last keyframe's timestamp
    plus its duration, which is the per-token pose durations plus the
    transition durations plus 1.0 s.  The two formulas of the original claim
    therefore differ by the transition total plus 0.5 s and are not
    equivalent. -/
theorem total_duration_closed_forms (isl_gloss : String) :
    (generate_animation_sequence isl_gloss).total_duration_seconds =
      pose_durations_total (_parse_gloss isl_gloss) + 0.5 ∧
    video_duration_field (_generate_keyframe_sequence (_parse_gloss isl_gloss)) =
      transitions_used (_parse_gloss isl_gloss) +
        pose_durations_total (_parse_gloss isl_gloss) + 1 ∧
    json_field (generate_animation_sequence isl_gloss).video_data "duration" =
      some (.num (transitions_used (_parse_gloss isl_gloss) +
        pose_durations_total (_parse_gloss isl_gloss) + 1)) := by
  have hdur : video_duration_field (_generate_keyframe_sequence (_parse_gloss isl_gloss)) =
      transitions_used (_parse_gloss isl_gloss) +
        pose_durations_total (_parse_gloss isl_gloss) + 1 := by
    rw [generate_keyframe_sequence_eq]
    simp only [video_duration_field, List.getLast?_concat, rest_keyframe,
      clock_after_closed]
    norm_num
    ring
  refine ⟨?_, hdur, ?_⟩
  · have hsum : ((_generate_keyframe_sequence (_parse_gloss isl_gloss)).map
        EmittedKeyFrame.duration).sum =
        pose_durations_total (_parse_gloss isl_gloss) + 0.5 := by
      rw [generate_keyframe_sequence_eq]
      simp only [List.map_append, List.sum_append, token_frames_duration_sum,
        List.map_cons, List.map_nil, List.sum_cons, List.sum_nil, rest_keyframe]
      norm_num
    show round2 _ = _
    rw [hsum]
    refine round2_tenth (tenth_mul_add (pose_durations_total_tenth _) ⟨5, by norm_num⟩)
  · show json_field (_generate_video_frames _) "duration" = _
    simp only [_generate_video_frames, json_field, List.lookup_cons, hdur]
    rfl

theorem vec3_roundtrip (v : Vec3) : vec3_of_json (vec3_json v) = v := rfl

theorem joints_roundtrip (jm : JointMap) :
    joints_of_json (joint_positions_json jm) = jm := by
  simp [joint_positions_json, joints_of_json, List.map_map, Function.comp_def,
    vec3_roundtrip]

theorem animation_frames_from_length (kfs : List EmittedKeyFrame) : ∀ total i,
    (animation_frames_from total i kfs).length = kfs.length := by
  induction kfs with
  | nil => intro total i; rfl
  | cons kf rest ih =>
    intro total i
    simp [animation_frames_from, ih]

theorem animation_frames_from_joints (kfs : List EmittedKeyFrame) : ∀ total i,
    (animation_frames_from total i kfs).map frame_joints =
      kfs.map EmittedKeyFrame.joint_positions := by
  induction kfs with
  | nil => intro total i; rfl
  | cons kf rest ih =>
    intro total i
    simp only [animation_frames_from, List.map_cons, ih]
    congr 1
    simp only [frame_joints, frame_data_json, json_field, List.lookup_cons]
    simpa using joints_roundtrip kf.joint_positions

/-- C7: decoding the packaged artifact's serialized frame blob reproduces
    exactly the frame count (both the frames-list length and the
    total_frames field), the fps, and the per-frame joint positions that
    were used to build it.  The Python transport, `json.dumps` then
    `base64.b64encode` with the inverse pair on the reader's side, is the
    standard library's lossless codec stack, so the model equates the blob
    with its JSON value; losslessness of the base64 layer itself on
    arbitrary byte strings is established by `b64decode_b64encode`. -/
theorem video_frames_roundtrip (keyframes : List EmittedKeyFrame) :
    (frames_of_blob (_generate_video_frames keyframes)).length = keyframes.length ∧
    json_field (_generate_video_frames keyframes) "total_frames" =
      some (.num keyframes.length) ∧
    fps_of_blob (_generate_video_frames keyframes) = 30 ∧
    (frames_of_blob (_generate_video_frames keyframes)).map frame_joints =
      keyframes.map EmittedKeyFrame.joint_positions := by
  refine ⟨?_, ?_, ?_, ?_⟩ <;>
    simp [_generate_video_frames, frames_of_blob, fps_of_blob, json_field,
      List.lookup_cons, animation_frames_from_length, animation_frames_from_joints,
      engine_fps]

theorem b64_index_char (n : ℕ) (h : n < 64) : b64_index (b64_char n) = n := by
  interval_cases n <;> rfl

theorem b64_char_ne_pad (n : ℕ) (h : n < 64) : b64_char n ≠ '=' := by
  interval_cases n <;> decide

/-- Base64 is lossless: decoding an encoded byte string gives it back. -/
theorem b64decode_b64encode : ∀ l : List ℕ, (∀ x ∈ l, x < 256) → b64decode (b64encode l) = l := by
  intro l
  induction l using b64encode.induct with
  | case1 => intro _; rfl
  | case2 a =>
    intro hb
    have ha : a < 256 := hb a (by simp)
    simp only [b64encode, b64decode]
    simp only [if_true]
    rw [b64_index_char _ (by omega), b64_index_char _ (by omega)]
    simp only [List.cons.injEq, and_true]
    omega
  | case3 a b =>
    intro hb
    have ha : a < 256 := hb a (by simp)
    have hb' : b < 256 := hb b (by simp)
    simp only [b64encode, b64decode]
    rw [if_neg (b64_char_ne_pad _ (by omega))]
    simp only [if_true]
    rw [b64_index_char _ (by omega), b64_index_char _ (by omega),
      b64_index_char _ (by omega)]
    simp only [List.cons.injEq, and_true]
    omega
  | case4 a b c rest ih =>
    intro hmem
    have ha : a < 256 := hmem a (by simp)
    have hb : b < 256 := hmem b (by simp)
    have hc : c < 256 := hmem c (by simp)
    simp only [b64encode, b64decode]
    rw [if_neg (b64_char_ne_pad _ (by omega)), if_neg (b64_char_ne_pad _ (by omega))]
    rw [b64_index_char _ (by omega), b64_index_char _ (by omega),
      b64_index_char _ (by omega), b64_index_char _ (by omega)]
    rw [ih (fun x hx => hmem x (by simp [hx]))]
    simp only [List.cons.injEq, and_true]
    omega

theorem keys_eq_connect {st : ManagerState} (h : keys_eq st) (stream_id : String)
    (socket : Socket) : keys_eq (connect st stream_id socket) := by
  intro k
  simp only [connect, map_insert]
  split_ifs <;> simp [h k]

theorem keys_eq_disconnect {st : ManagerState} (h : keys_eq st) (stream_id : String) :
    keys_eq (disconnect st stream_id) := by
  intro k
  simp only [disconnect, map_erase]
  split_ifs <;> simp [h k]

theorem keys_eq_store {st : ManagerState} (h : keys_eq st) (stream_id : String)
    (a : CachedAnimation) (now : ℚ) :
    keys_eq (store_animation_data st stream_id a now) := by
  intro k
  exact h k

theorem keys_eq_send {st : ManagerState} (h : keys_eq st) (stream_id : String)
    (frame : Json) : keys_eq (send_animation_frame st stream_id frame).1 := by
  unfold send_animation_frame
  rcases hc : st.active_connections stream_id with _ | socket
  · exact h
  · obtain ⟨m, hm⟩ : ∃ m, st.connection_metadata stream_id = some m := by
      have hk := h stream_id
      rw [hc] at hk
      rcases hmm : st.connection_metadata stream_id with _ | m
      · rw [hmm] at hk; simp at hk
      · exact ⟨m, rfl⟩
    simp only
    split
    · rw [hm]
      intro k
      simp only [map_insert]
      split_ifs <;> simp [h k]
    · intro k
      simp only [disconnect, map_erase, map_insert]
      split_ifs <;> simp [h k]

theorem keys_eq_send_error {st : ManagerState} (h : keys_eq st)
    (stream_id code message : String) :
    keys_eq (send_error st stream_id code message).1 :=
  keys_eq_send h stream_id _

theorem keys_eq_stream_frames (stream_id : String) (frames : List Json) :
    ∀ st : ManagerState, keys_eq st → keys_eq (stream_frames stream_id st frames).1 := by
  induction frames with
  | nil => intro st h; exact h
  | cons f rest ih =>
    intro st h
    unfold stream_frames
    have h1 := keys_eq_send h stream_id (frame_message stream_id f)
    dsimp only
    split
    · exact ih _ h1
    · exact h1

theorem keys_eq_stream_animation {st : ManagerState} (h : keys_eq st) (stream_id : String) :
    keys_eq (stream_animation st stream_id).1 := by
  unfold stream_animation
  rcases hc : st.animation_cache stream_id with _ | ad
  · exact keys_eq_send_error h stream_id _ _
  · rcases hconn : st.active_connections stream_id with _ | socket
    · exact h
    · dsimp only
      have h1 := keys_eq_send h stream_id (metadata_message stream_id ad.1)
      split
      · exact h1
      · rcases hv : ad.1.video_data with _ | blob
        · exact keys_eq_send_error h1 stream_id _ _
        · exact keys_eq_send (keys_eq_stream_frames _ _ _ h1) stream_id _

/-- C8: when stream_animation runs for a streamId with no cached artifact,
    the manager performs exactly one send for that invocation, and the frame
    it offers is the structured error frame with code ANIMATION_NOT_FOUND. -/
theorem play_without_artifact_single_error (st : ManagerState) (stream_id : String)
    (h : st.animation_cache stream_id = none) :
    (stream_animation st stream_id).2.map SendEvent.frame =
      [error_frame stream_id "ANIMATION_NOT_FOUND" "Animation data not available"] := by
  unfold stream_animation
  rw [h]
  unfold send_error send_animation_frame
  rcases hc : st.active_connections stream_id with _ | socket <;> simp only [hc]
  · simp
  · split <;> simp

/-- Witness for `play_without_artifact_single_error` at a concrete state. -/
theorem play_without_artifact_single_error_witness :
    (stream_animation demo_state "s1").2.map SendEvent.frame =
      [error_frame "s1" "ANIMATION_NOT_FOUND" "Animation data not available"] :=
  play_without_artifact_single_error demo_state "s1" rfl

/-- C9: a cached artifact with missing/empty video_data_base64 on a
    connected, healthy stream produces the animation_metadata frame and then
    exactly one NO_ANIMATION_DATA error frame — in particular no
    animation_frame and no animation_complete frame — both delivered. -/
theorem play_no_video_data_metadata_then_error (st : ManagerState) (stream_id : String)
    (a : CachedAnimation) (t : ℚ)
    (hc : st.animation_cache stream_id = some (a, t))
    (hv : a.video_data = none)
    (hconn : st.active_connections stream_id = some []) :
    (stream_animation st stream_id).2.map SendEvent.frame =
      [metadata_message stream_id a,
       error_frame stream_id "NO_ANIMATION_DATA" "No animation frames available"] ∧
    (stream_animation st stream_id).2.map SendEvent.outcome =
      [.delivered, .delivered] := by
  unfold stream_animation
  rw [hc]
  rcases hm : st.connection_metadata stream_id with _ | meta <;>
    simp [hconn, send_animation_frame, send_error, hv, hm, map_insert]

/-- Witness for `play_no_video_data_metadata_then_error` at a concrete
    state holding the fallback artifact. -/
theorem play_no_video_data_metadata_then_error_witness :
    (stream_animation demo_state_cached "s1").2.map SendEvent.frame =
      [metadata_message "s1" (fallback_cached "HELLO"),
       error_frame "s1" "NO_ANIMATION_DATA" "No animation frames available"] ∧
    (stream_animation demo_state_cached "s1").2.map SendEvent.outcome =
      [.delivered, .delivered] :=
  play_no_video_data_metadata_then_error demo_state_cached "s1" (fallback_cached "HELLO") 0
    rfl rfl rfl

/-- C10: connect registers a stream id in both active_connections and
    connection_metadata, disconnect removes it from both, and
    send_animation_frame — whose send-failure path invokes disconnect —
    preserves the key-set equality, as do store_animation_data, send_error
    and stream_animation, which are composed from them; so every operation
    of the manager preserves equality of the two dicts' key sets. -/
theorem connection_key_sets_preserved :
    (∀ (st : ManagerState) (stream_id : String) (socket : Socket),
      keys_eq st → keys_eq (connect st stream_id socket)) ∧
    (∀ (st : ManagerState) (stream_id : String),
      keys_eq st → keys_eq (disconnect st stream_id)) ∧
    (∀ (st : ManagerState) (stream_id : String) (frame : Json),
      keys_eq st → keys_eq (send_animation_frame st stream_id frame).1) ∧
    (∀ (st : ManagerState) (stream_id : String) (a : CachedAnimation) (now : ℚ),
      keys_eq st → keys_eq (store_animation_data st stream_id a now)) ∧
    (∀ (st : ManagerState) (stream_id code message : String),
      keys_eq st → keys_eq (send_error st stream_id code message).1) ∧
    (∀ (st : ManagerState) (stream_id : String),
      keys_eq st → keys_eq (stream_animation st stream_id).1) :=
  ⟨fun _ _ socket h => keys_eq_connect h _ socket,
   fun _ _ h => keys_eq_disconnect h _,
   fun _ _ frame h => keys_eq_send h _ frame,
   fun _ _ a now h => keys_eq_store h _ a now,
   fun _ _ _ _ h => keys_eq_send_error h _ _ _,
   fun _ _ h => keys_eq_stream_animation h _⟩

/-- Witness for `connection_key_sets_preserved` at a concrete state. -/
theorem connection_key_sets_preserved_witness :
    keys_eq demo_state ∧
    keys_eq (connect demo_state "s2" []) ∧
    keys_eq (disconnect demo_state "s1") ∧
    keys_eq (send_animation_frame demo_state "s1" Json.null).1 ∧
    keys_eq (store_animation_data demo_state "s1" (fallback_cached "HELLO") 0) ∧
    keys_eq (send_error demo_state "s1" "STREAMING_ERROR" "boom").1 ∧
    keys_eq (stream_animation demo_state "s1").1 := by
  have h : keys_eq demo_state := by
    intro k
    by_cases hk : k = "s1" <;> simp [demo_state, hk]
  exact ⟨h,
    connection_key_sets_preserved.1 _ _ _ h,
    connection_key_sets_preserved.2.1 _ _ h,
    connection_key_sets_preserved.2.2.1 _ _ _ h,
    connection_key_sets_preserved.2.2.2.1 _ _ _ _ h,
    connection_key_sets_preserved.2.2.2.2.1 _ _ _ _ h,
    connection_key_sets_preserved.2.2.2.2.2 _ _ h⟩

end ISLModel
